import Mathlib

/-!
Verification development for the synthesia-sdk TypeScript client library.

The source is shallowly embedded: the axios HTTP transport and Node's
crypto module are external collaborators, so their outcomes appear as
explicit inputs (an `HttpOutcome` value for one HTTP exchange, an HMAC
oracle function for signature verification).  JavaScript peculiarities
that the code relies on (string truthiness where only the empty string
is falsy, `parseInt` returning NaN, `||` defaulting) are modelled
explicitly.  Machine numbers are modelled as `Nat`/`Int`; NaN is
represented by `none` in an `Option Int`.
-/

/-- JavaScript truthiness of an optional string value: `undefined` and
the empty string are falsy, every other string is truthy.  Models the
`if (x)` checks the source performs on header and body fields. -/
def truthyStr : Option String → Bool
  | none => false
  | some s => s != ""

/-- JavaScript `a || b` on an optional string `a` with fallback `b`:
yields `b` when `a` is `undefined` or the empty string. -/
def jsOrStr (a : Option String) (b : String) : String :=
  match a with
  | none => b
  | some s => if s == "" then b else s

/-- Model of JavaScript `parseInt(s)` as used on rate-limit header
values: leading whitespace is trimmed, an optional sign is read, then
the longest leading digit run is parsed; `none` models the NaN result
when no digits are found. -/
def parseIntJS (s : String) : Option Int :=
  let t := s.trim
  let (sign, digits) :=
    if t.startsWith "-" then ((-1 : Int), (t.drop 1).toList)
    else if t.startsWith "+" then ((1 : Int), (t.drop 1).toList)
    else ((1 : Int), t.toList)
  let ds := digits.takeWhile Char.isDigit
  if ds.isEmpty then none
  else some (sign * (ds.foldl (fun acc c => acc * 10 + (c.toNat - 48)) 0 : Nat))

/-- Embedding of the `SynthesiaError` interface from `types.ts`:
`message: string; statusCode: number; code?: string; details?: any`.
The opaque `details` payload is modelled as a string. -/
structure SynthesiaError where
  message : String
  statusCode : Nat
  code : Option String
  details : Option String
  deriving DecidableEq, Repr

/-- Embedding of `APIResponse<T>` from `types.ts`: a record with two
optional fields `data?: T` and `error?: SynthesiaError`. -/
structure APIResponse (T : Type) where
  data : Option T
  error : Option SynthesiaError
  deriving DecidableEq, Repr

/-- Embedding of `RateLimitInfo` from `types.ts`: `limit` and
`remaining` are JavaScript numbers produced by `parseInt` (so possibly
NaN, modelled as `none`); `resetAt` is stored as the raw header
string. -/
structure RateLimitInfo where
  limit : Option Int
  remaining : Option Int
  resetAt : String
  deriving DecidableEq, Repr

/-- The three response headers `updateRateLimitInfo` reads:
`x-ratelimit-limit`, `x-ratelimit-remaining` and `x-ratelimit-reset`.
`none` models an absent header. -/
structure RateLimitHeaders where
  limit : Option String
  remaining : Option String
  reset : Option String
  deriving DecidableEq, Repr

/-- The fields of an error-response body that `handleError` reads
(`errorData.message`, `errorData.error`, `errorData.code`,
`errorData.details`); each is `none` when the body has no such field,
as for a non-JSON body. -/
structure ErrorBody where
  message : Option String
  error : Option String
  code : Option String
  details : Option String
  deriving DecidableEq, Repr

/-- The part of an axios error's `response` object that the client
reads: HTTP status, parsed body, and response headers.  An `AxiosError`
with `response = none` models a pure network failure. -/
structure AxiosErrorResponse where
  status : Nat
  data : Option ErrorBody
  headers : RateLimitHeaders
  deriving DecidableEq, Repr

/-- Embedding of the axios error object reaching the response
interceptor's rejection handler: transport message plus optional
response. -/
structure AxiosError where
  message : String
  response : Option AxiosErrorResponse
  deriving DecidableEq, Repr

/-- The part of a successful axios response that the client reads:
the parsed body and the response headers. -/
structure AxiosResponse (T : Type) where
  data : T
  headers : RateLimitHeaders
  deriving DecidableEq, Repr

/-- Outcome of one underlying HTTP exchange, the external collaborator
of `SynthesiaClient.request`: either a 2xx response or an axios error
(network failure or non-2xx status). -/
inductive HttpOutcome (T : Type) where
  | ok (response : AxiosResponse T)
  | err (e : AxiosError)
  deriving DecidableEq, Repr

/-- Embedding of `SynthesiaClient.handleError` (`client.ts`): builds a
`SynthesiaError` with `message` from the transport error,
`statusCode: error.response?.status || 500`, then, when
`error.response?.data` is truthy, overrides `message` with
`errorData.message || errorData.error || error.message` and copies
`code` and `details` from the body. -/
def handleError (e : AxiosError) : SynthesiaError :=
  let statusCode : Nat :=
    match e.response with
    | none => 500
    | some r => if r.status = 0 then 500 else r.status
  match e.response with
  | none => { message := e.message, statusCode, code := none, details := none }
  | some r =>
    match r.data with
    | none => { message := e.message, statusCode, code := none, details := none }
    | some body =>
      { message := jsOrStr body.message (jsOrStr body.error e.message)
        statusCode
        code := body.code
        details := body.details }

/-- Embedding of `SynthesiaClient.updateRateLimitInfo` (`client.ts`):
given the client's current `rateLimitInfo` slot and the headers of the
response being processed (`none` when no response was received), the
slot is overwritten only when all three rate-limit headers are truthy
(`if (limit && remaining && resetAt)`), storing `parseInt` of `limit`
and `remaining` and the raw `resetAt` string; otherwise it is left
unchanged. -/
def updateRateLimitInfo (st : Option RateLimitInfo) :
    Option RateLimitHeaders → Option RateLimitInfo
  | none => st
  | some h =>
    if truthyStr h.limit && truthyStr h.remaining && truthyStr h.reset then
      some { limit := parseIntJS (h.limit.getD "")
             remaining := parseIntJS (h.remaining.getD "")
             resetAt := h.reset.getD "" }
    else st

/-- Embedding of `SynthesiaClient.request` together with the response
interceptors (`client.ts`).  The success interceptor records the
rate-limit headers and hands the response to the `try` block, which
returns `{ data: response.data }`; the rejection interceptor records
the headers of `error.response` (when any), throws
`handleError(error)`, and the `catch` block turns the thrown value
into `{ error }`.  The function is total: no exception escapes this
boundary.  The state argument and result are the client's
`rateLimitInfo` slot before and after the exchange. -/
def request {T : Type} (st : Option RateLimitInfo) (outcome : HttpOutcome T) :
    APIResponse T × Option RateLimitInfo :=
  match outcome with
  | .ok r => ({ data := some r.data, error := none }, updateRateLimitInfo st (some r.headers))
  | .err e =>
    ({ data := none, error := some (handleError e) },
     updateRateLimitInfo st (e.response.map AxiosErrorResponse.headers))

/-- Embedding of `SynthesiaUtils.calculateRetryDelay` (`utils.ts`):
`baseDelay * Math.pow(2, attempt)` with `baseDelay` defaulting to
1000. -/
def calculateRetryDelay (attempt : Nat) (baseDelay : Nat := 1000) : Nat :=
  baseDelay * 2 ^ attempt

/-- Embedding of `SynthesiaUtils.validateWebhookSignature` (`utils.ts`).
The HMAC-SHA256 hex digest is computed by Node's crypto module, an
external collaborator, so it appears as an oracle argument
`hmacSha256Hex secret payload`; the function then compares
`"sha256=" + expectedSignature` with the given signature string.
Total: it never throws. -/
def validateWebhookSignature (hmacSha256Hex : String → String → String)
    (payload signature secret : String) : Bool :=
  let expectedSignature := hmacSha256Hex secret payload
  ("sha256=" ++ expectedSignature) == signature

/-- One result of the caller-supplied fetch function of
`SynthesiaUtils.pollVideoStatus`: declared in the source as
`{ data?: { status: string } }`.  `data` holds the status string when
present; `error` models an `ErrorInfo` a real `APIResponse` may also
carry — the loop never reads it. -/
structure PollFetchResult where
  data : Option String
  error : Option SynthesiaError
  deriving DecidableEq, Repr

/-- The two errors `pollVideoStatus` can throw: `fetchFailed` is
`new Error('Failed to get video status')`, `timedOut` is
`new Error('Video processing timed out')`. -/
inductive PollError where
  | fetchFailed
  | timedOut
  deriving DecidableEq, Repr

deriving instance DecidableEq for Except

/-- Observable trace of one `pollVideoStatus` run: the returned status
or thrown error, the number of invocations of the fetch function, the
number of `sleep(intervalMs)` calls, and the statuses passed to
`onStatusUpdate` in order. -/
structure PollTrace where
  result : Except PollError String
  fetchCount : Nat
  sleepCount : Nat
  statusUpdates : List String
  deriving DecidableEq, Repr

/-- Body of the `for (let attempt = 0; attempt < maxAttempts; attempt++)`
loop of `SynthesiaUtils.pollVideoStatus` (`utils.ts`), with the number
of remaining iterations as fuel.  The fetch function is determinised by
call index (each iteration calls it exactly once, in order).  Per
iteration: a result without `data` throws `fetchFailed`; otherwise the
status is reported to `onStatusUpdate`, `"complete"` and `"failed"`
are returned, and any other status sleeps — except on the last
iteration (`attempt < maxAttempts - 1`) — and retries.  Exhausted fuel
throws `timedOut`. -/
def pollGo (getVideo : Nat → PollFetchResult) (attempt : Nat) :
    Nat → PollTrace
  | 0 => ⟨.error .timedOut, 0, 0, []⟩
  | n + 1 =>
    match (getVideo attempt).data with
    | none => ⟨.error .fetchFailed, 1, 0, []⟩
    | some status =>
      if status == "complete" || status == "failed" then
        ⟨.ok status, 1, 0, [status]⟩
      else
        let rest := pollGo getVideo (attempt + 1) n
        ⟨rest.result, rest.fetchCount + 1,
         rest.sleepCount + (if n == 0 then 0 else 1),
         status :: rest.statusUpdates⟩

/-- Embedding of `SynthesiaUtils.pollVideoStatus` (`utils.ts`):
runs the polling loop from attempt 0.  `maxAttempts` (default 60) is a
JavaScript number that the loop condition `attempt < maxAttempts`
compares against the attempt counter, so a non-positive value yields
zero iterations; `intervalMs` only scales the sleeps and is not part
of the trace. -/
def pollVideoStatus (getVideo : Nat → PollFetchResult)
    (maxAttempts : Int := 60) : PollTrace :=
  pollGo getVideo 0 maxAttempts.toNat

/-- Embedding of `TemplateConfig` from `types.ts`: `{ id: string;
data: Record<string, any> }`, the record modelled as an association
list of opaque string values. -/
structure TemplateConfig where
  id : String
  data : List (String × String)
  deriving DecidableEq, Repr

/-- The option-bag fields of `createVideoFromTemplate` that the claimed
defaulting logic touches (`options?.title`, `options?.visibility`);
`none` models a key that is absent from the options object.  The
remaining optional fields are spread through unchanged in both
generations and do not interact with the defaults. -/
structure TemplateVideoOptions where
  title : Option String
  visibility : Option String
  deriving DecidableEq, Repr

namespace VideosAPI

/-- The fields of the first-generation `CreateVideoRequest`
(`types.ts`) that `createVideoFromTemplate` sets: `title`, `template`
and the optional `visibility` (a string `'public' | 'private'`). -/
structure CreateVideoRequest where
  title : String
  template : Option TemplateConfig
  visibility : Option String
  deriving DecidableEq, Repr

/-- Embedding of the first-generation `VideosAPI.createVideoFromTemplate`
(`videos.ts`): builds `{ title: options?.title || 'Video from
Template', template: { id, data }, ...options }` and posts it to
`/videos` via `createVideo`.  The object spread means a title key
present in `options` wins over the `||` default; no visibility default
exists in this generation — the field comes verbatim from `options`.
Returns the endpoint and the request object sent. -/
def createVideoFromTemplate (templateId : String)
    (data : List (String × String)) (options : TemplateVideoOptions) :
    String × CreateVideoRequest :=
  let request : CreateVideoRequest :=
    { title :=
        match options.title with
        | some t => t
        | none => "Video from Template"
      template := some { id := templateId, data := data }
      visibility := options.visibility }
  ("/videos", request)

end VideosAPI

namespace VideosAPI2

/-- The fields of the second-generation
`CreateVideoFromTemplateRequest` that `createVideoFromTemplate` sets:
`templateId`, `templateData`, `title` and `visibility`. -/
structure CreateVideoFromTemplateRequest where
  templateId : String
  templateData : List (String × String)
  title : String
  visibility : String
  deriving DecidableEq, Repr

/-- Embedding of the second-generation
`VideosAPI.createVideoFromTemplate`: builds `{ templateId,
templateData: data, title: options?.title || 'Video from Template',
visibility: options?.visibility || 'private', ...options }` and posts
it to `/videos/fromTemplate`.  Because `...options` follows the
defaults, a key present in `options` supplies the final value and the
`||` defaults apply exactly when the key is absent.  Returns the
endpoint and the request object sent. -/
def createVideoFromTemplate (templateId : String)
    (data : List (String × String)) (options : TemplateVideoOptions) :
    String × CreateVideoFromTemplateRequest :=
  let request : CreateVideoFromTemplateRequest :=
    { templateId := templateId
      templateData := data
      title :=
        match options.title with
        | some t => t
        | none => "Video from Template"
      visibility :=
        match options.visibility with
        | some v => v
        | none => "private" }
  ("/videos/fromTemplate", request)

end VideosAPI2

/-- Fetch stub for the polling scenario of the spec: returns
`"in_progress"` on the first two calls and `"complete"` on every later
one. -/
def stubTwiceThenComplete : Nat → PollFetchResult :=
  fun n => ⟨some (if n < 2 then "in_progress" else "complete"), none⟩

/-- Fetch stub that always reports the same status and no error. -/
def stubConst (s : String) : Nat → PollFetchResult :=
  fun _ => ⟨some s, none⟩

/-- Left-cancellation of string concatenation, used to compare a
signature against the `sha256=`-prefixed digest. -/
theorem string_append_left_cancel {p a b : String} (h : p ++ a = p ++ b) :
    a = b := by
  cases a
  cases b
  simp_all [String.ext_iff]

/-- C5: for every attempt `n` and every `baseDelay`,
`calculateRetryDelay n baseDelay = baseDelay * 2 ^ n`; the default
`baseDelay` is 1000; and `calculateRetryDelay 0 base = base`. -/
theorem calculateRetryDelay_spec :
    (∀ (n base : Nat), calculateRetryDelay n base = base * 2 ^ n) ∧
    (∀ n : Nat, calculateRetryDelay n = 1000 * 2 ^ n) ∧
    (∀ base : Nat, calculateRetryDelay 0 base = base) := by
  refine ⟨fun n base => rfl, fun n => rfl, fun base => ?_⟩
  simp [calculateRetryDelay]

/-- C4: for every payload and secret,
`validateWebhookSignature payload ("sha256=" ++ hmac secret payload)
secret` is true; verification is false — and, being a total `Bool`
function, never throws — for any payload whose digest differs from the
signed one (in particular, under collision-freedom of the external
HMAC oracle, for any payload that differs at all), and for any
signature string that lacks the `sha256=` prefix or has the wrong
length. -/
theorem validateWebhookSignature_spec :
    ∀ (hmacSha256Hex : String → String → String) (payload secret : String),
      (validateWebhookSignature hmacSha256Hex payload
        ("sha256=" ++ hmacSha256Hex secret payload) secret = true) ∧
      (∀ payload2 : String,
        (∀ x y, hmacSha256Hex secret x = hmacSha256Hex secret y → x = y) →
        payload2 ≠ payload →
        validateWebhookSignature hmacSha256Hex payload2
          ("sha256=" ++ hmacSha256Hex secret payload) secret = false) ∧
      (∀ sig : String, (¬ ∃ rest, sig = "sha256=" ++ rest) →
        validateWebhookSignature hmacSha256Hex payload sig secret = false) ∧
      (∀ sig : String,
        sig.length ≠ ("sha256=" ++ hmacSha256Hex secret payload).length →
        validateWebhookSignature hmacSha256Hex payload sig secret = false) := by
  intro hm payload secret
  refine ⟨?_, ?_, ?_, ?_⟩
  · simp [validateWebhookSignature]
  · intro p2 hinj hne
    simp only [validateWebhookSignature, beq_eq_false_iff_ne, ne_eq]
    intro heq
    exact hne (hinj p2 payload (string_append_left_cancel heq))
  · intro sig hno
    cases h : validateWebhookSignature hm payload sig secret with
    | false => rfl
    | true =>
      have h2 : (("sha256=" ++ hm secret payload) == sig) = true := h
      exact absurd ⟨hm secret payload, (eq_of_beq h2).symm⟩ hno
  · intro sig hlen
    cases h : validateWebhookSignature hm payload sig secret with
    | false => rfl
    | true =>
      have h2 : (("sha256=" ++ hm secret payload) == sig) = true := h
      exact absurd (congrArg String.length (eq_of_beq h2)).symm hlen

/-- Witness for C4 at a concrete oracle and concrete strings. -/
theorem validateWebhookSignature_spec_witness :
    (validateWebhookSignature (fun _ p => p) "x" ("sha256=" ++ "x") "k" = true) ∧
    (validateWebhookSignature (fun _ p => p) "y" ("sha256=" ++ "x") "k" = false) ∧
    (validateWebhookSignature (fun _ p => p) "x" "nope" "k" = false) ∧
    (validateWebhookSignature (fun _ p => p) "x" "sha256=zz" "k" = false) := by
  obtain ⟨h1, h2, h3, h4⟩ := validateWebhookSignature_spec (fun _ p => p) "x" "k"
  refine ⟨h1, h2 "y" (fun x y hxy => hxy) (by decide), h3 "nope" ?_,
    h4 "sha256=zz" (by decide)⟩
  rintro ⟨rest, hr⟩
  have hlen := congrArg String.length hr
  rw [String.length_append] at hlen
  have hn1 : ("nope" : String).length = 4 := by decide
  have hn2 : ("sha256=" : String).length = 7 := by decide
  omega

/-- C1: every transport call yields a `Result` with exactly one of
`data`/`error` set: on a 2xx outcome `data` is the parsed body and
`error` is undefined, on a failed outcome `error` is the normalized
error and `data` is undefined; `request` is total, so nothing is
thrown past this boundary. -/
theorem request_result_envelope :
    ∀ (T : Type) (st : Option RateLimitInfo) (o : HttpOutcome T),
      (((request st o).1.data.isSome = true ∧ (request st o).1.error = none) ∨
       ((request st o).1.data = none ∧ (request st o).1.error.isSome = true)) ∧
      (∀ r, o = .ok r → (request st o).1 = { data := some r.data, error := none }) ∧
      (∀ e, o = .err e → (request st o).1 =
        { data := none, error := some (handleError e) }) := by
  intro T st o
  cases o with
  | ok r =>
    refine ⟨Or.inl ⟨rfl, rfl⟩, ?_, ?_⟩
    · intro r2 h
      cases h
      rfl
    · intro e h
      exact nomatch h
  | err e =>
    refine ⟨Or.inr ⟨rfl, rfl⟩, ?_, ?_⟩
    · intro r h
      exact nomatch h
    · intro e2 h
      cases h
      rfl

/-- Witness for C1 at one concrete success and one concrete failure. -/
theorem request_result_envelope_witness :
    ((request none (HttpOutcome.ok (⟨7, ⟨none, none, none⟩⟩ : AxiosResponse Nat))).1 =
      { data := some 7, error := none }) ∧
    ((request none (HttpOutcome.err (⟨"Network Error", none⟩ : AxiosError))
        : APIResponse Nat × Option RateLimitInfo).1 =
      { data := none, error := some (handleError ⟨"Network Error", none⟩) }) :=
  ⟨(request_result_envelope Nat none
      (HttpOutcome.ok (⟨7, ⟨none, none, none⟩⟩ : AxiosResponse Nat))).2.1 _ rfl,
   (request_result_envelope Nat none
      (HttpOutcome.err (⟨"Network Error", none⟩ : AxiosError))).2.2 _ rfl⟩

/-- C2: the `ErrorInfo` built for a failed call has `statusCode` equal
to the HTTP response status (500 when no response was received at
all), and `message`/`code`/`details` are taken from the response body
when it is a structured JSON error object with a message, falling back
to the generic transport error message when there is no usable body. -/
theorem handleError_spec :
    ∀ (e : AxiosError),
      (e.response = none →
        handleError e = { message := e.message, statusCode := 500,
                          code := none, details := none }) ∧
      (∀ r, e.response = some r → r.status ≠ 0 →
        (handleError e).statusCode = r.status) ∧
      (∀ r body msg, e.response = some r → r.data = some body →
        body.message = some msg → msg ≠ "" →
        (handleError e).message = msg ∧ (handleError e).code = body.code ∧
        (handleError e).details = body.details) ∧
      (∀ r, e.response = some r → r.data = none →
        (handleError e).message = e.message ∧ (handleError e).code = none ∧
        (handleError e).details = none) ∧
      (∀ r body, e.response = some r → r.data = some body →
        body.message = none → body.error = none →
        (handleError e).message = e.message) := by
  intro e
  obtain ⟨m, resp⟩ := e
  cases resp with
  | none =>
    refine ⟨fun _ => rfl, ?_, ?_, ?_, ?_⟩
    · intro r h
      exact nomatch h
    · intro r body msg h
      exact nomatch h
    · intro r h
      exact nomatch h
    · intro r body h
      exact nomatch h
  | some r =>
    obtain ⟨st, dt, hd⟩ := r
    refine ⟨?_, ?_, ?_, ?_, ?_⟩
    · intro h
      exact nomatch h
    · intro r2 h hne
      cases h
      cases dt <;> simp [handleError, hne]
    · intro r2 body msg h hdata hmsg hne
      cases h
      cases hdata
      obtain ⟨bm, be, bc, bd⟩ := body
      cases hmsg
      refine ⟨?_, rfl, rfl⟩
      simp [handleError, jsOrStr, hne]
    · intro r2 h hdata
      cases h
      cases hdata
      exact ⟨rfl, rfl, rfl⟩
    · intro r2 body h hdata hmsg herr
      cases h
      cases hdata
      obtain ⟨bm, be, bc, bd⟩ := body
      cases hmsg
      cases herr
      simp [handleError, jsOrStr]

/-- Witness for C2 at one pure network failure and one structured
400-response. -/
theorem handleError_spec_witness :
    (handleError ⟨"Network Error", none⟩ =
      { message := "Network Error", statusCode := 500,
        code := none, details := none }) ∧
    ((handleError ⟨"Request failed",
        some ⟨400, some ⟨some "Invalid request", none, some "BAD_REQUEST", none⟩,
              ⟨none, none, none⟩⟩⟩).statusCode = 400) ∧
    ((handleError ⟨"Request failed",
        some ⟨400, some ⟨some "Invalid request", none, some "BAD_REQUEST", none⟩,
              ⟨none, none, none⟩⟩⟩).message = "Invalid request") := by
  have h1 := (handleError_spec ⟨"Network Error", none⟩).1 rfl
  have h2 := (handleError_spec ⟨"Request failed",
      some ⟨400, some ⟨some "Invalid request", none, some "BAD_REQUEST", none⟩,
            ⟨none, none, none⟩⟩⟩).2.1 _ rfl (by decide)
  have h3 := ((handleError_spec ⟨"Request failed",
      some ⟨400, some ⟨some "Invalid request", none, some "BAD_REQUEST", none⟩,
            ⟨none, none, none⟩⟩⟩).2.2.1 _ _ "Invalid request" rfl rfl rfl
      (by decide)).1
  exact ⟨h1, h2, h3⟩

/-- The polling loop on a stub that always reports the same
non-terminal status: all `n` remaining attempts are used, the loop
times out, and it sleeps on every iteration but the last. -/
theorem pollGo_const_nonterminal (s : String) (hc : s ≠ "complete")
    (hf : s ≠ "failed") :
    ∀ (n a : Nat), pollGo (stubConst s) a n =
      ⟨.error .timedOut, n, n - 1, List.replicate n s⟩ := by
  intro n
  induction n with
  | zero =>
    intro a
    rfl
  | succ k ih =>
    intro a
    have hbeq : (s == "complete" || s == "failed") = false := by
      simp [hc, hf]
    simp only [pollGo, stubConst, hbeq, Bool.false_eq_true, if_false]
    rw [ih (a + 1)]
    cases k with
    | zero => rfl
    | succ j => simp [List.replicate_succ]

/-- C3: on a fetch stub returning `"in_progress"` twice and then
`"complete"`, `pollVideoStatus` returns `"complete"` after exactly 3
fetch invocations and exactly 2 sleeps; on a stub that always returns
a non-terminal status, it fails with the timeout error after exactly
`maxAttempts` invocations; the terminal statuses are exactly
`"complete"` and `"failed"`, each returned on first sight. -/
theorem pollVideoStatus_spec :
    (pollVideoStatus stubTwiceThenComplete 60 =
      ⟨.ok "complete", 3, 2, ["in_progress", "in_progress", "complete"]⟩) ∧
    (∀ s : String, s ≠ "complete" → s ≠ "failed" → ∀ m : Nat,
      pollVideoStatus (stubConst s) (m : Int) =
        ⟨.error .timedOut, m, m - 1, List.replicate m s⟩) ∧
    (∀ s : String, s = "complete" ∨ s = "failed" →
      pollVideoStatus (stubConst s) 60 = ⟨.ok s, 1, 0, [s]⟩) := by
  refine ⟨by decide, ?_, ?_⟩
  · intro s hc hf m
    have hm : ((m : Int)).toNat = m := by simp
    simp only [pollVideoStatus, hm]
    exact pollGo_const_nonterminal s hc hf m 0
  · intro s hs
    rcases hs with rfl | rfl <;> decide

/-- Witness for C3: a non-terminal stub with budget 5 times out after
5 fetches and 4 sleeps; a stub reporting `"failed"` returns after one
fetch. -/
theorem pollVideoStatus_spec_witness :
    (pollVideoStatus (stubConst "in_progress") ((5 : Nat) : Int) =
      ⟨.error .timedOut, 5, 4, List.replicate 5 "in_progress"⟩) ∧
    (pollVideoStatus (stubConst "failed") 60 = ⟨.ok "failed", 1, 0, ["failed"]⟩) :=
  ⟨pollVideoStatus_spec.2.1 "in_progress" (by decide) (by decide) 5,
   pollVideoStatus_spec.2.2 "failed" (Or.inr rfl)⟩

/-- C7: whenever the fetch function returns a result without `data`,
the loop throws `Failed to get video status` on that very iteration —
one fetch, no sleep, no further polling; in particular a run whose
first fetch has no `data` ends immediately this way. -/
theorem pollVideoStatus_failfast :
    (∀ (getVideo : Nat → PollFetchResult) (a n : Nat),
      (getVideo a).data = none →
      pollGo getVideo a (n + 1) = ⟨.error .fetchFailed, 1, 0, []⟩) ∧
    (∀ (getVideo : Nat → PollFetchResult) (m : Int), 1 ≤ m →
      (getVideo 0).data = none →
      pollVideoStatus getVideo m = ⟨.error .fetchFailed, 1, 0, []⟩) := by
  have hbody : ∀ (g : Nat → PollFetchResult) (a n : Nat),
      (g a).data = none → pollGo g a (n + 1) = ⟨.error .fetchFailed, 1, 0, []⟩ := by
    intro g a n h
    simp only [pollGo, h]
  refine ⟨hbody, ?_⟩
  intro g m hm h
  have h2 : m.toNat = (m.toNat - 1) + 1 := by omega
  show pollGo g 0 m.toNat = _
  rw [h2]
  exact hbody g 0 (m.toNat - 1) h

/-- Witness for C7: a stub with no `data` fails fast on the first
iteration. -/
theorem pollVideoStatus_failfast_witness :
    pollVideoStatus (fun _ => ⟨none, none⟩) 1 =
      ⟨.error .fetchFailed, 1, 0, []⟩ :=
  pollVideoStatus_failfast.2 (fun _ => ⟨none, none⟩) 1 (by decide) rfl

/-- C9: the loop never reads the `error` field of a fetch result —
two fetch functions agreeing on `data` produce identical traces — and
a result carrying an `ErrorInfo` but no `data` throws the same generic
`Failed to get video status` error as an entirely empty result. -/
theorem pollVideoStatus_ignores_error_field :
    (∀ (f g : Nat → PollFetchResult), (∀ k, (f k).data = (g k).data) →
      ∀ (a n : Nat), pollGo f a n = pollGo g a n) ∧
    (∀ (e : SynthesiaError) (a n : Nat),
      pollGo (fun _ => ⟨none, some e⟩) a (n + 1) =
        ⟨.error .fetchFailed, 1, 0, []⟩ ∧
      pollGo (fun _ => ⟨none, some e⟩) a (n + 1) =
        pollGo (fun _ => (⟨none, none⟩ : PollFetchResult)) a (n + 1)) := by
  constructor
  · intro f g hfg a n
    induction n generalizing a with
    | zero => rfl
    | succ k ih =>
      cases hga : (g a).data with
      | none => simp only [pollGo, hfg a, hga]
      | some status =>
        by_cases hterm : (status == "complete" || status == "failed") = true
        · simp only [pollGo, hfg a, hga, hterm, if_true]
        · simp only [Bool.not_eq_true] at hterm
          simp only [pollGo, hfg a, hga, hterm, Bool.false_eq_true, if_false,
            ih (a + 1)]
  · intro e a n
    exact ⟨rfl, rfl⟩

/-- Witness for C9: an error-carrying stub and an empty stub yield the
same trace over a budget of 4 attempts. -/
theorem pollVideoStatus_ignores_error_field_witness :
    pollGo (fun _ => ⟨none, some ⟨"boom", 500, none, none⟩⟩) 0 4 =
      pollGo (fun _ => (⟨none, none⟩ : PollFetchResult)) 0 4 :=
  pollVideoStatus_ignores_error_field.1 _ _ (fun _ => rfl) 0 4

/-- C10: for every `maxAttempts ≤ 0` the loop body never runs:
`pollVideoStatus` throws `Video processing timed out` with zero fetch
invocations, zero `onStatusUpdate` callbacks and zero sleeps. -/
theorem pollVideoStatus_nonpositive_maxAttempts :
    ∀ (m : Int), m ≤ 0 → ∀ (getVideo : Nat → PollFetchResult),
      pollVideoStatus getVideo m = ⟨.error .timedOut, 0, 0, []⟩ := by
  intro m hm g
  show pollGo g 0 m.toNat = _
  rw [Int.toNat_of_nonpos hm]
  rfl

/-- Witness for C10 at `maxAttempts = -3`. -/
theorem pollVideoStatus_nonpositive_maxAttempts_witness :
    pollVideoStatus (stubConst "in_progress") (-3) =
      ⟨.error .timedOut, 0, 0, []⟩ :=
  pollVideoStatus_nonpositive_maxAttempts (-3) (by decide) (stubConst "in_progress")

/-- Counterexample to C6 as stated: a response that carries all three
rate-limit headers, but with an empty value for the limit header,
leaves the snapshot unchanged (here: still unset) instead of
overwriting it — JavaScript truthiness makes the guard
`if (limit && remaining && resetAt)` treat an empty header value as
absent. -/
theorem updateRateLimitInfo_empty_header_counterexample :
    updateRateLimitInfo none (some ⟨some "", some "45", some "T"⟩) = none ∧
    (updateRateLimitInfo none (some ⟨some "", some "45", some "T"⟩)).isSome
      = false := by
  exact ⟨rfl, rfl⟩

/-- C6 (amended): whenever a processed response carries all three
rate-limit headers with non-empty values, the snapshot is overwritten
with exactly those values (limit and remaining as `parseInt` of the
header strings, reset as the raw string); if any header is absent or
has an empty value, or no response was received, the snapshot is left
unchanged — last-write-wins, never cleared.  The update runs through
`request` on success and failure alike. -/
theorem updateRateLimitInfo_spec :
    ∀ (st : Option RateLimitInfo) (h : RateLimitHeaders),
      (∀ l r t, h.limit = some l → h.remaining = some r → h.reset = some t →
        l ≠ "" → r ≠ "" → t ≠ "" →
        updateRateLimitInfo st (some h) =
          some ⟨parseIntJS l, parseIntJS r, t⟩) ∧
      ((h.limit = none ∨ h.remaining = none ∨ h.reset = none) →
        updateRateLimitInfo st (some h) = st) ∧
      ((h.limit = some "" ∨ h.remaining = some "" ∨ h.reset = some "") →
        updateRateLimitInfo st (some h) = st) ∧
      (updateRateLimitInfo st none = st) ∧
      (∀ (T : Type) (resp : AxiosResponse T),
        (request st (HttpOutcome.ok resp)).2 =
          updateRateLimitInfo st (some resp.headers)) ∧
      (∀ (T : Type) (e : AxiosError),
        (request st (HttpOutcome.err e : HttpOutcome T)).2 =
          updateRateLimitInfo st (e.response.map AxiosErrorResponse.headers)) := by
  intro st h
  obtain ⟨hl, hr, ht⟩ := h
  refine ⟨?_, ?_, ?_, rfl, fun T resp => rfl, fun T e => rfl⟩
  · intro l r t h1 h2 h3 n1 n2 n3
    cases h1
    cases h2
    cases h3
    simp [updateRateLimitInfo, truthyStr, n1, n2, n3]
  · intro hcase
    rcases hcase with h1 | h1 | h1 <;> cases h1 <;>
      simp [updateRateLimitInfo, truthyStr]
  · intro hcase
    rcases hcase with h1 | h1 | h1 <;> cases h1 <;>
      simp [updateRateLimitInfo, truthyStr]

/-- Witness for C6 (amended): headers `60/45/T` overwrite an unset
snapshot with `{60, 45, T}`; a headerless response leaves a stored
snapshot untouched. -/
theorem updateRateLimitInfo_spec_witness :
    (updateRateLimitInfo none (some ⟨some "60", some "45", some "T"⟩) =
      some ⟨parseIntJS "60", parseIntJS "45", "T"⟩) ∧
    (updateRateLimitInfo (some ⟨some 60, some 45, "T"⟩)
      (some ⟨none, none, none⟩) = some ⟨some 60, some 45, "T"⟩) :=
  ⟨(updateRateLimitInfo_spec none ⟨some "60", some "45", some "T"⟩).1
      "60" "45" "T" rfl rfl rfl (by decide) (by decide) (by decide),
   (updateRateLimitInfo_spec (some ⟨some 60, some 45, "T"⟩)
      ⟨none, none, none⟩).2.1 (Or.inl rfl)⟩

/-- Counterexample to C8 as stated: the first-generation
`createVideoFromTemplate` (the one posting a `CreateVideoRequest` with
a `template` config to `/videos`) applies no visibility default — the
request it builds without explicit options has no `visibility` field
at all, not `"private"`. -/
theorem createVideoFromTemplate_no_default_counterexample :
    (VideosAPI.createVideoFromTemplate "tpl" [] ⟨none, none⟩).2.visibility
      = none ∧
    (VideosAPI.createVideoFromTemplate "tpl" [] ⟨none, none⟩).2.visibility
      ≠ some "private" := by
  exact ⟨rfl, by decide⟩

/-- C8 (amended): the second-generation `createVideoFromTemplate`
(posting to `/videos/fromTemplate`) defaults `visibility` to
`"private"` and `title` to `"Video from Template"` when the options
omit them, and forwards an explicitly supplied visibility unchanged;
the first generation (posting to `/videos`) applies only the title
default and forwards the visibility option verbatim, leaving the field
unset when none is supplied. -/
theorem createVideoFromTemplate_defaults :
    ∀ (tid : String) (data : List (String × String))
      (opts : TemplateVideoOptions),
      (opts.visibility = none →
        (VideosAPI2.createVideoFromTemplate tid data opts).2.visibility =
          "private") ∧
      (∀ v, opts.visibility = some v →
        (VideosAPI2.createVideoFromTemplate tid data opts).2.visibility = v) ∧
      (opts.title = none →
        (VideosAPI2.createVideoFromTemplate tid data opts).2.title =
          "Video from Template") ∧
      ((VideosAPI.createVideoFromTemplate tid data opts).2.visibility =
        opts.visibility) ∧
      (opts.title = none →
        (VideosAPI.createVideoFromTemplate tid data opts).2.title =
          "Video from Template") ∧
      ((VideosAPI2.createVideoFromTemplate tid data opts).1 =
        "/videos/fromTemplate") ∧
      ((VideosAPI.createVideoFromTemplate tid data opts).1 = "/videos") := by
  intro tid data opts
  obtain ⟨ot, ov⟩ := opts
  refine ⟨?_, ?_, ?_, rfl, ?_, rfl, rfl⟩
  · intro hv
    cases hv
    rfl
  · intro v hv
    cases hv
    rfl
  · intro htl
    cases htl
    rfl
  · intro htl
    cases htl
    rfl

/-- Witness for C8 (amended): without options the second generation
sends visibility `"private"`; with explicit `"public"` it forwards it;
the first generation sends no visibility either way. -/
theorem createVideoFromTemplate_defaults_witness :
    ((VideosAPI2.createVideoFromTemplate "tpl" [] ⟨none, none⟩).2.visibility =
      "private") ∧
    ((VideosAPI2.createVideoFromTemplate "tpl" []
        ⟨none, some "public"⟩).2.visibility = "public") ∧
    ((VideosAPI2.createVideoFromTemplate "tpl" [] ⟨none, none⟩).2.title =
      "Video from Template") ∧
    ((VideosAPI.createVideoFromTemplate "tpl" []
        ⟨none, some "public"⟩).2.visibility = some "public") :=
  ⟨(createVideoFromTemplate_defaults "tpl" [] ⟨none, none⟩).1 rfl,
   (createVideoFromTemplate_defaults "tpl" [] ⟨none, some "public"⟩).2.1
      "public" rfl,
   (createVideoFromTemplate_defaults "tpl" [] ⟨none, none⟩).2.2.1 rfl,
   (createVideoFromTemplate_defaults "tpl" [] ⟨none, some "public"⟩).2.2.2.1⟩
